import Mathlib

/-!
Shallow embedding of `src/loggerpython/logger.py`, a minimal leveled logger.

Modelling conventions:
* Printed output is a `List String`, one entry per printed line (Python `print`
  newline-terminates each line).
* Python exceptions are the `PyExc` type; a computation's outcome is
  `Except PyExc α`.  `sys.exit(1)` raises `SystemExit(1)`, modelled as
  `PyExc.systemExit 1`; a `systemExit` escaping to the top level terminates the
  process with that exit status.  `except Exception` does not catch
  `SystemExit` (it derives from `BaseException`), but `finally` still runs.
* Wall-clock time is abstracted: `fmtTime` stands for
  `datetime.now().strftime`, mapping the logger's format pattern to the
  formatted current time, and `elapsedStr` stands for the rendered
  `f-string` field of the measured elapsed seconds.
* Python `repr` of arguments and results is abstracted as already-rendered
  strings (`args`, `kwargs`, `reprResult`).
-/

/-- Python exceptions arising in the logger: `ValueError`, `SystemExit`
(raised by `sys.exit`), and arbitrary exceptions raised by wrapped user code
(exception class name plus `str(e)`). -/
inductive PyExc where
  | valueError (msg : String)
  | systemExit (code : Nat)
  | exc (name msg : String)
deriving DecidableEq, Repr

/-- Whether `except Exception` catches this exception: `SystemExit` derives
from `BaseException`, not `Exception`, so it is not caught. -/
def PyExc.isException : PyExc → Bool
  | .systemExit _ => false
  | _ => true

/-- Python `str(e)`: the text used when the exception is interpolated into a
log line (`str(SystemExit(1))` is `"1"`). -/
def PyExc.message : PyExc → String
  | .valueError m => m
  | .systemExit c => toString c
  | .exc _ m => m

deriving instance DecidableEq for Except

/-- The observable effect of a fragment of logger code: the lines printed to
standard output, in order, and either a normal result or an in-flight
exception. -/
structure PyM (α : Type) where
  lines : List String
  result : Except PyExc α
deriving DecidableEq, Repr

/-- Python `str.upper()`: uppercase every character (the level names are
ASCII, where Python and Lean uppercasing agree). -/
def pyUpper (s : String) : String := ⟨s.data.map Char.toUpper⟩

/-- Python `list.index` on a list of strings: the first index of `x`, raising
`ValueError` when `x` is absent. -/
def listIndex (x : String) : List String → Except PyExc Nat
  | [] => .error (.valueError ("'" ++ x ++ "' is not in list"))
  | y :: ys =>
    if y = x then .ok 0 else
      match listIndex x ys with
      | .ok i => .ok (i + 1)
      | .error e => .error e

/-- The module-level severity ranking `LOG_LEVELS`, low to high. -/
def LOG_LEVELS : List String := ["DEBUG", "INFO", "WARNING", "ERROR", "CRITICAL"]

/-- The logger object: a timestamp format pattern and the current threshold,
the two fields assigned by `logger_class.__init__`. -/
structure logger_class where
  format : String
  loglevel : String
deriving DecidableEq, Repr

/-- `__init__`: stores the default strftime pattern and `level.upper()`; the
level string is not validated here. -/
def logger_init (level : String) : logger_class :=
  { format := "%Y-%m-%d  %H:%M:%S", loglevel := pyUpper level }

/-- `set_loglevel`: uppercases the argument, raises `ValueError` when the
result is not one of the five levels (the logger is unchanged in that case),
otherwise stores it as the new threshold. -/
def logger_class.set_loglevel (self : logger_class) (level : String) :
    Except PyExc logger_class :=
  let level := pyUpper level
  if level ∉ LOG_LEVELS then
    .error (.valueError ("Invalid log level '" ++ level ++ "'. Choose from: " ++
      String.intercalate ", " LOG_LEVELS))
  else
    .ok { self with loglevel := level }

/-- `__should_log`: `LOG_LEVELS.index(level) >= LOG_LEVELS.index(self.loglevel)`,
with Python evaluation order (the message level is looked up first, so an
invalid message level raises before an invalid threshold does). -/
def logger_class.should_log (self : logger_class) (level : String) :
    Except PyExc Bool :=
  match listIndex level LOG_LEVELS with
  | .error e => .error e
  | .ok i =>
    match listIndex self.loglevel LOG_LEVELS with
    | .error e => .error e
    | .ok j => .ok (decide (i ≥ j))

/-- The printed line `f"{formatted_time} [{level}]: {message}"`. -/
def logLine (formatted_time level message : String) : String :=
  formatted_time ++ " [" ++ level ++ "]: " ++ message

/-- `__log`: consults `__should_log`; when the message passes, prints exactly
one line `"<formatted-time> [<LEVEL>]: <message>"` and then, for CRITICAL,
calls `sys.exit(1)` (modelled as raising `systemExit 1` after the line is
printed). -/
def logger_class.log (self : logger_class) (fmtTime : String → String)
    (level message : String) : PyM Unit :=
  match self.should_log level with
  | .error e => ⟨[], .error e⟩
  | .ok true =>
    let formatted_time := fmtTime self.format
    ⟨[logLine formatted_time level message],
      if level = "CRITICAL" then .error (.systemExit 1) else .ok ()⟩
  | .ok false => ⟨[], .ok ()⟩

/-- `debug`: log at level DEBUG. -/
def logger_class.debug (self : logger_class) (fmtTime : String → String)
    (message : String) : PyM Unit :=
  self.log fmtTime "DEBUG" message

/-- `info`: log at level INFO. -/
def logger_class.info (self : logger_class) (fmtTime : String → String)
    (message : String) : PyM Unit :=
  self.log fmtTime "INFO" message

/-- `warning`: log at level WARNING. -/
def logger_class.warning (self : logger_class) (fmtTime : String → String)
    (message : String) : PyM Unit :=
  self.log fmtTime "WARNING" message

/-- `error`: log at level ERROR. -/
def logger_class.error (self : logger_class) (fmtTime : String → String)
    (message : String) : PyM Unit :=
  self.log fmtTime "ERROR" message

/-- `critical`: log at level CRITICAL. -/
def logger_class.critical (self : logger_class) (fmtTime : String → String)
    (message : String) : PyM Unit :=
  self.log fmtTime "CRITICAL" message

/-- The `wrapper` closure produced by `__call__`: logs
`"Calling <name>(<args>)"` at INFO, runs the wrapped function, logs the
return value at INFO on success, logs `"Error in <name>: <msg>"` at ERROR
for an exception caught by `except Exception` and re-raises it, and in a
`finally` clause logs the execution time at DEBUG.  `args` and `kwargs`
carry the `repr` renderings of the positional and keyword arguments,
`funcResult` is the effect of running the wrapped function (its own printed
lines and its outcome), `reprResult` renders results like Python `repr`, and
`elapsedStr` is the rendering `f"{elapsed:.4f}"` of the measured duration.
An exception raised by a log call inside the `try` (or the `finally`)
replaces the in-flight outcome, exactly as in Python. -/
def logger_class.call_wrapper {α : Type} (self : logger_class)
    (fmtTime : String → String) (elapsedStr : String) (func_name : String)
    (args : List String) (kwargs : List (String × String))
    (funcResult : PyM α) (reprResult : α → String) : PyM α :=
  let arg_list := args ++ kwargs.map (fun kv => kv.1 ++ "=" ++ kv.2)
  let arg_str := String.intercalate ", " arg_list
  match self.info fmtTime ("Calling " ++ func_name ++ "(" ++ arg_str ++ ")") with
  | ⟨ls0, .error e⟩ => ⟨ls0, .error e⟩
  | ⟨ls0, .ok _⟩ =>
    let tryBody : PyM α :=
      match funcResult with
      | ⟨lsf, .error e⟩ => ⟨lsf, .error e⟩
      | ⟨lsf, .ok r⟩ =>
        match self.info fmtTime (func_name ++ " returned " ++ reprResult r) with
        | ⟨ls1, .error e⟩ => ⟨lsf ++ ls1, .error e⟩
        | ⟨ls1, .ok _⟩ => ⟨lsf ++ ls1, .ok r⟩
    let handled : PyM α :=
      match tryBody with
      | ⟨ls, .ok r⟩ => ⟨ls, .ok r⟩
      | ⟨ls, .error e⟩ =>
        if e.isException then
          match self.error fmtTime ("Error in " ++ func_name ++ ": " ++ PyExc.message e) with
          | ⟨ls1, .error e2⟩ => ⟨ls ++ ls1, .error e2⟩
          | ⟨ls1, .ok _⟩ => ⟨ls ++ ls1, .error e⟩
        else ⟨ls, .error e⟩
    match self.debug fmtTime (func_name ++ " execution time: " ++ elapsedStr ++ "s ") with
    | ⟨ls2, .error e2⟩ => ⟨ls0 ++ handled.lines ++ ls2, .error e2⟩
    | ⟨ls2, .ok _⟩ => ⟨ls0 ++ handled.lines ++ ls2, handled.result⟩

/-- Rank of a severity in the order DEBUG < INFO < WARNING < ERROR < CRITICAL,
written from the spec's words for the refinement statement about
`__should_log`. -/
def specRank : String → Nat
  | "DEBUG" => 0
  | "INFO" => 1
  | "WARNING" => 2
  | "ERROR" => 3
  | "CRITICAL" => 4
  | _ => 5

/-- Logger states reachable by construction with a level name whose uppercase
form is one of the five severities, followed by any sequence of successful
`set_loglevel` calls.  (`__init__` itself does not validate, so construction
is restricted here to valid names; see the counterexample to the unrestricted
statement.) -/
inductive Reachable : logger_class → Prop where
  | init (level : String) (h : pyUpper level ∈ LOG_LEVELS) :
      Reachable (logger_init level)
  | set (self : logger_class) (level : String) (next : logger_class)
      (hr : Reachable self) (hs : self.set_loglevel level = .ok next) :
      Reachable next

/-! Helper lemmas shared by several claims. -/

/-- `list.index` on an absent element raises `ValueError`. -/
theorem listIndex_not_mem (x : String) (l : List String) (h : x ∉ l) :
    listIndex x l = .error (.valueError ("'" ++ x ++ "' is not in list")) := by
  induction l with
  | nil => rfl
  | cons y ys ih =>
    have hyx : ¬(y = x) := fun e => h (e ▸ List.mem_cons_self y ys)
    have h2 : x ∉ ys := fun e => h (List.mem_cons_of_mem y e)
    rw [listIndex, if_neg hyx, ih h2]

/-- `__should_log` written with both lookups as one two-scrutinee match. -/
theorem should_log_eq (st : logger_class) (level : String) :
    st.should_log level =
      match listIndex level LOG_LEVELS, listIndex st.loglevel LOG_LEVELS with
      | .error e, _ => .error e
      | .ok _, .error e => .error e
      | .ok i, .ok j => .ok (decide (i ≥ j)) := by
  rw [logger_class.should_log]
  cases listIndex level LOG_LEVELS with
  | error e => rfl
  | ok i => cases listIndex st.loglevel LOG_LEVELS <;> rfl

/-- With a stored threshold outside the five levels, `__should_log` on any
valid message level raises `ValueError` from the second `list.index` call. -/
theorem should_log_invalid (st : logger_class) (h : st.loglevel ∉ LOG_LEVELS)
    (level : String) (hv : level ∈ LOG_LEVELS) :
    st.should_log level =
      .error (.valueError ("'" ++ st.loglevel ++ "' is not in list")) := by
  rw [should_log_eq, listIndex_not_mem st.loglevel LOG_LEVELS h]
  fin_cases hv <;> rfl

/-- With a stored threshold outside the five levels, `__log` on any valid
message level prints nothing and raises `ValueError`. -/
theorem log_invalid (st : logger_class) (h : st.loglevel ∉ LOG_LEVELS)
    (level : String) (hv : level ∈ LOG_LEVELS) (fmtTime : String → String)
    (m : String) :
    st.log fmtTime level m =
      ⟨[], .error (.valueError ("'" ++ st.loglevel ++ "' is not in list"))⟩ := by
  rw [logger_class.log, should_log_invalid st h level hv]

/-! The claims. -/

/-- C1: for every pair of levels drawn from the five defined severities, with
the threshold set to `T`, `__should_log` applied to a message level `S`
returns true if and only if the rank of `S` in the order
DEBUG < INFO < WARNING < ERROR < CRITICAL is at least the rank of `T`. -/
theorem c1_should_log_iff_rank (S T fmt : String)
    (hS : S ∈ LOG_LEVELS) (hT : T ∈ LOG_LEVELS) :
    ({ format := fmt, loglevel := T } : logger_class).should_log S = .ok true ↔
      specRank T ≤ specRank S := by
  fin_cases hS <;> fin_cases hT <;>
    simp [logger_class.should_log, listIndex, LOG_LEVELS, specRank]

/-- C1, witness: with threshold WARNING an ERROR message passes the filter. -/
theorem c1_should_log_iff_rank_witness :
    ({ format := "f", loglevel := "WARNING" } : logger_class).should_log "ERROR" =
      .ok true :=
  (c1_should_log_iff_rank "ERROR" "WARNING" "f" (by decide) (by decide)).mpr
    (by decide)

/-- C2: with the threshold set to any of the five severities, `critical`
prints exactly one line and then calls `sys.exit(1)`: the outcome is the
printed line followed by `SystemExit(1)`, which terminates the process with
exit status 1; this holds for threshold CRITICAL as well, so a CRITICAL
message is never suppressed and the exit always follows the written line. -/
theorem c2_critical_always_exits (T fmt m : String) (fmtTime : String → String)
    (hT : T ∈ LOG_LEVELS) :
    ({ format := fmt, loglevel := T } : logger_class).critical fmtTime m =
      ⟨[logLine (fmtTime fmt) "CRITICAL" m], .error (.systemExit 1)⟩ := by
  fin_cases hT <;> rfl

/-- C2, witness: threshold CRITICAL, one line printed, then exit 1. -/
theorem c2_critical_always_exits_witness :
    ({ format := "f", loglevel := "CRITICAL" } : logger_class).critical
      (fun _ => "t") "x" = ⟨["t [CRITICAL]: x"], .error (.systemExit 1)⟩ :=
  (c2_critical_always_exits "CRITICAL" "f" "x" (fun _ => "t") (by decide)).trans
    (by decide)

/-- C5: `set_loglevel` with a string that does not case-insensitively
normalize to one of the five severities raises `ValueError` naming the
invalid value and listing the valid choices — and, the embedding returning
only the error, the stored threshold is left exactly as it was; with a
string that does normalize to one of the five it replaces the threshold by
the uppercased value. -/
theorem c5_set_loglevel_validates (self : logger_class) (level : String) :
    (pyUpper level ∉ LOG_LEVELS →
      self.set_loglevel level = .error (.valueError
        ("Invalid log level '" ++ pyUpper level ++ "'. Choose from: " ++
          String.intercalate ", " LOG_LEVELS))) ∧
    (pyUpper level ∈ LOG_LEVELS →
      self.set_loglevel level = .ok { self with loglevel := pyUpper level }) := by
  constructor <;> intro h <;> simp [logger_class.set_loglevel, h]

/-- C5, witness: "VERBOSE" is rejected with the documented message, "debug"
normalizes to DEBUG and is stored. -/
theorem c5_set_loglevel_validates_witness :
    (logger_init "INFO").set_loglevel "VERBOSE" = .error (.valueError
      "Invalid log level 'VERBOSE'. Choose from: DEBUG, INFO, WARNING, ERROR, CRITICAL") ∧
    (logger_init "INFO").set_loglevel "debug" =
      .ok { format := "%Y-%m-%d  %H:%M:%S", loglevel := "DEBUG" } :=
  ⟨((c5_set_loglevel_validates (logger_init "INFO") "VERBOSE").1 (by decide)).trans
      (by decide),
   ((c5_set_loglevel_validates (logger_init "INFO") "debug").2 (by decide)).trans
      (by decide)⟩

/-- C6, counterexample: the claim quantifies over construction with any
initial level string, but `__init__` does not validate: constructing with
"VERBOSE" stores the threshold "VERBOSE", which is not one of the five
defined severities. -/
theorem c6_threshold_counterexample :
    (logger_init "VERBOSE").loglevel = "VERBOSE" ∧ "VERBOSE" ∉ LOG_LEVELS := by
  decide

/-- C6, amended: for every logger reachable by construction with an initial
level string whose uppercased form is one of the five severities, followed by
any sequence of successful `set_loglevel` calls, the stored threshold is one
of the five defined severities; `set_loglevel` rejects every other value
before mutation. -/
theorem c6_reachable_threshold_valid (st : logger_class) (h : Reachable st) :
    st.loglevel ∈ LOG_LEVELS := by
  induction h with
  | init level hl => exact hl
  | set self level next hr hs ih =>
    rw [logger_class.set_loglevel] at hs
    split at hs
    · exact absurd hs (by simp)
    · rename_i hmem
      cases hs
      exact not_not.mp hmem

/-- C6, witness: the logger constructed with "info" has a valid threshold. -/
theorem c6_reachable_threshold_valid_witness :
    (logger_init "info").loglevel ∈ LOG_LEVELS :=
  c6_reachable_threshold_valid (logger_init "info")
    (Reachable.init "info" (by decide))

/-- C8: with threshold WARNING, `debug` and `info` print nothing at all,
while `warning` and `error` each print exactly one line. -/
theorem c8_warning_threshold_filtering (fmt m : String)
    (fmtTime : String → String) :
    ({ format := fmt, loglevel := "WARNING" } : logger_class).debug fmtTime m =
      ⟨[], .ok ()⟩ ∧
    ({ format := fmt, loglevel := "WARNING" } : logger_class).info fmtTime m =
      ⟨[], .ok ()⟩ ∧
    ({ format := fmt, loglevel := "WARNING" } : logger_class).warning fmtTime m =
      ⟨[logLine (fmtTime fmt) "WARNING" m], .ok ()⟩ ∧
    ({ format := fmt, loglevel := "WARNING" } : logger_class).error fmtTime m =
      ⟨[logLine (fmtTime fmt) "ERROR" m], .ok ()⟩ :=
  ⟨rfl, rfl, rfl, rfl⟩

/-- C9: every non-suppressed emission at a valid level below CRITICAL prints
exactly one line, of the exact form `"<formatted-time> [<LEVEL>]: <message>"`
with the current time rendered through the logger's configured pattern, and
nothing is appended after the message (the call returns normally: no exit,
no further output). -/
theorem c9_emission_line_format (st : logger_class) (level m : String)
    (fmtTime : String → String) (_hv : level ∈ LOG_LEVELS)
    (hc : level ≠ "CRITICAL") (he : st.should_log level = .ok true) :
    st.log fmtTime level m = ⟨[logLine (fmtTime st.format) level m], .ok ()⟩ := by
  rw [logger_class.log, he, if_neg hc]

/-- C9, witness: threshold INFO, a WARNING message is printed in the
documented format. -/
theorem c9_emission_line_format_witness :
    (logger_init "INFO").log (fun _ => "2024-01-01  00:00:00") "WARNING" "x" =
      ⟨["2024-01-01  00:00:00 [WARNING]: x"], .ok ()⟩ :=
  (c9_emission_line_format (logger_init "INFO") "WARNING" "x"
    (fun _ => "2024-01-01  00:00:00") (by decide) (by decide) (by decide)).trans
    (by decide)

/-- C10: `__init__` accepts any string without validation and stores its
uppercased form; when that uppercased string is not one of the five
severities, every logging method (`debug`, `info`, `warning`, `error`,
`critical`) prints nothing and raises `ValueError` from the
`LOG_LEVELS.index(self.loglevel)` lookup. -/
theorem c10_unvalidated_construction (level : String) :
    (logger_init level).loglevel = pyUpper level ∧
    (pyUpper level ∉ LOG_LEVELS → ∀ (fmtTime : String → String) (m : String),
      (logger_init level).debug fmtTime m =
        ⟨[], .error (.valueError ("'" ++ pyUpper level ++ "' is not in list"))⟩ ∧
      (logger_init level).info fmtTime m =
        ⟨[], .error (.valueError ("'" ++ pyUpper level ++ "' is not in list"))⟩ ∧
      (logger_init level).warning fmtTime m =
        ⟨[], .error (.valueError ("'" ++ pyUpper level ++ "' is not in list"))⟩ ∧
      (logger_init level).error fmtTime m =
        ⟨[], .error (.valueError ("'" ++ pyUpper level ++ "' is not in list"))⟩ ∧
      (logger_init level).critical fmtTime m =
        ⟨[], .error (.valueError ("'" ++ pyUpper level ++ "' is not in list"))⟩) :=
  ⟨rfl, fun h fmtTime m =>
    ⟨log_invalid (logger_init level) h "DEBUG" (by decide) fmtTime m,
     log_invalid (logger_init level) h "INFO" (by decide) fmtTime m,
     log_invalid (logger_init level) h "WARNING" (by decide) fmtTime m,
     log_invalid (logger_init level) h "ERROR" (by decide) fmtTime m,
     log_invalid (logger_init level) h "CRITICAL" (by decide) fmtTime m⟩⟩

/-- C10, witness: constructing with "verbose" stores "VERBOSE" and `info`
then raises `ValueError` without printing. -/
theorem c10_unvalidated_construction_witness :
    (logger_init "verbose").loglevel = "VERBOSE" ∧
    (logger_init "verbose").info (fun _ => "t") "x" =
      ⟨[], .error (.valueError "'VERBOSE' is not in list")⟩ :=
  ⟨((c10_unvalidated_construction "verbose").1).trans (by decide),
   (((c10_unvalidated_construction "verbose").2 (by decide)
      (fun _ => "t") "x").2.1).trans (by decide)⟩

/-- C3: with threshold DEBUG, wrapping a function that returns normally with
result `r` emits exactly three lines in order — the INFO
`"Calling <f-name>(<arg-list>)"` line (positional `repr`s in order, then
keyword arguments as `name=repr(value)`), the INFO
`"<f-name> returned <repr-of-result>"` line, and the DEBUG execution-time
line — and the wrapper returns the same result `r` to its caller. -/
theorem c3_wrapper_success_trace {α : Type} (fmt name es : String)
    (fmtTime : String → String) (args : List String)
    (kwargs : List (String × String)) (r : α) (reprR : α → String) :
    ({ format := fmt, loglevel := "DEBUG" } : logger_class).call_wrapper
      fmtTime es name args kwargs ⟨[], .ok r⟩ reprR =
    ⟨[logLine (fmtTime fmt) "INFO" ("Calling " ++ name ++ "(" ++
        String.intercalate ", "
          (args ++ kwargs.map (fun kv => kv.1 ++ "=" ++ kv.2)) ++ ")"),
      logLine (fmtTime fmt) "INFO" (name ++ " returned " ++ reprR r),
      logLine (fmtTime fmt) "DEBUG" (name ++ " execution time: " ++ es ++ "s ")],
     .ok r⟩ :=
  rfl

/-- C4: with the threshold set to any of the five severities, wrapping a
function that raises an error caught by `except Exception` logs the
`"Error in <f-name>: <error-message>"` line at ERROR (unless suppressed by
the threshold; likewise the INFO call line and the DEBUG timing line are
emitted exactly when the threshold admits them), and re-raises the very same
error unchanged to the wrapper's caller — its identity and message are
neither masked nor transformed. -/
theorem c4_wrapper_error_reraise {α : Type} (T fmt name es : String)
    (fmtTime : String → String) (args : List String)
    (kwargs : List (String × String)) (e : PyExc) (reprR : α → String)
    (hT : T ∈ LOG_LEVELS) (he : e.isException = true) :
    ({ format := fmt, loglevel := T } : logger_class).call_wrapper
      fmtTime es name args kwargs ⟨[], .error e⟩ reprR =
    ⟨(if specRank T ≤ specRank "INFO" then
        [logLine (fmtTime fmt) "INFO" ("Calling " ++ name ++ "(" ++
          String.intercalate ", "
            (args ++ kwargs.map (fun kv => kv.1 ++ "=" ++ kv.2)) ++ ")")]
      else []) ++
     (if specRank T ≤ specRank "ERROR" then
        [logLine (fmtTime fmt) "ERROR" ("Error in " ++ name ++ ": " ++ e.message)]
      else []) ++
     (if specRank T ≤ specRank "DEBUG" then
        [logLine (fmtTime fmt) "DEBUG"
          (name ++ " execution time: " ++ es ++ "s ")]
      else []),
     .error e⟩ := by
  cases e with
  | systemExit c => simp [PyExc.isException] at he
  | valueError m => fin_cases hT <;> rfl
  | exc n m => fin_cases hT <;> rfl

/-- C4, witness: threshold WARNING, a wrapped `ValueError("bad")`: the call
and timing lines are suppressed, the ERROR line is printed, and the same
error propagates. -/
theorem c4_wrapper_error_reraise_witness :
    ({ format := "f", loglevel := "WARNING" } : logger_class).call_wrapper
      (fun _ => "t") "0.0010" "g" ["2"] [("k", "3")]
      (⟨[], .error (.exc "ValueError" "bad")⟩ : PyM Nat) (fun n => toString n) =
    ⟨["t [ERROR]: Error in g: bad"], .error (.exc "ValueError" "bad")⟩ :=
  (c4_wrapper_error_reraise "WARNING" "f" "g" "0.0010" (fun _ => "t")
    ["2"] [("k", "3")] (.exc "ValueError" "bad") (fun n : Nat => toString n)
    (by decide) (by decide)).trans (by decide)

/-- C7, counterexample: with threshold DEBUG, a CRITICAL message emitted
inside a wrapped function is not the last line written.  `sys.exit(1)` raises
`SystemExit`, which `except Exception` does not catch, but the wrapper's
`finally` clause still runs and prints the DEBUG execution-time line after
the CRITICAL line; only then does the process exit with status 1. -/
theorem c7_critical_last_counterexample :
    ({ format := "f", loglevel := "DEBUG" } : logger_class).call_wrapper
      (fun _ => "t") "0.0000" "g" [] []
      (({ format := "f", loglevel := "DEBUG" } : logger_class).critical
        (fun _ => "t") "boom")
      (fun _ : Unit => "None") =
    ⟨["t [INFO]: Calling g()", "t [CRITICAL]: boom",
      "t [DEBUG]: g execution time: 0.0000s "], .error (.systemExit 1)⟩ := by
  decide

/-- C7, amended: a CRITICAL line written by a direct logging call is
immediately followed by `sys.exit(1)`, so nothing more is printed in that
call; but when the CRITICAL message is emitted inside a wrapped function,
the `SystemExit` passes the `except Exception` handler uncaught (no ERROR
line) and the `finally` clause still logs the DEBUG timing line, which is
printed after the CRITICAL line exactly when the threshold admits DEBUG;
the process then exits with status 1. -/
theorem c7_critical_in_wrapper (T fmt name es m : String)
    (fmtTime : String → String) (args : List String)
    (kwargs : List (String × String)) (reprR : Unit → String)
    (hT : T ∈ LOG_LEVELS) :
    ({ format := fmt, loglevel := T } : logger_class).call_wrapper
      fmtTime es name args kwargs
      (({ format := fmt, loglevel := T } : logger_class).critical fmtTime m)
      reprR =
    ⟨(if specRank T ≤ specRank "INFO" then
        [logLine (fmtTime fmt) "INFO" ("Calling " ++ name ++ "(" ++
          String.intercalate ", "
            (args ++ kwargs.map (fun kv => kv.1 ++ "=" ++ kv.2)) ++ ")")]
      else []) ++
     [logLine (fmtTime fmt) "CRITICAL" m] ++
     (if specRank T ≤ specRank "DEBUG" then
        [logLine (fmtTime fmt) "DEBUG"
          (name ++ " execution time: " ++ es ++ "s ")]
      else []),
     .error (.systemExit 1)⟩ := by
  fin_cases hT <;> rfl

/-- C7, witness for the amended statement: with threshold ERROR, the INFO and
DEBUG lines are suppressed, so the CRITICAL line is last before the exit. -/
theorem c7_critical_in_wrapper_witness :
    ({ format := "f", loglevel := "ERROR" } : logger_class).call_wrapper
      (fun _ => "t") "0.0000" "g" [] []
      (({ format := "f", loglevel := "ERROR" } : logger_class).critical
        (fun _ => "t") "boom")
      (fun _ : Unit => "None") =
    ⟨["t [CRITICAL]: boom"], .error (.systemExit 1)⟩ :=
  (c7_critical_in_wrapper "ERROR" "f" "g" "0.0000" "boom" (fun _ => "t") [] []
    (fun _ : Unit => "None") (by decide)).trans (by decide)
